import Mathlib

/-!
Verification of the `dataset_scalyr_query` tool
(src/tools/dataset_scalyr_query.py).

The tool is a one-shot HTTP client: it reads a credential from the process
environment, builds a JSON request body from its parameters, issues one POST
to a fixed URL, and normalises success and failure into a single mapping.

Shallow embedding choices:
* Python/JSON values are modelled by the inductive `Json`.  JSON numbers are
  modelled as arbitrary-precision integers; fractional and exponent literals
  are outside the model (none of the verified properties involve them).
* The process environment is an association list of variables.
* The single network interaction is modelled by passing in the outcome
  (`HTTPResponse`) that `urllib.request.urlopen` produced for this call:
  a decoded 2xx body, an `HTTPError`, a `URLError`, or any other exception.
* `json.loads` is modelled by the executable parser `loads` below;
  `loads s = none` models the `json.JSONDecodeError` raise.  The message of
  that exception is position-dependent library text, so it enters the model
  as an explicit parameter `decodeMsg : String → String`.
* The function's result records both the returned mapping and the request
  that went out on the wire (`none` when the call short-circuited before any
  network activity).
-/

/-- A JSON value, as produced by Python's `json.loads`: `null`, booleans,
numbers (modelled as integers), strings, arrays, and objects with ordered
fields. -/
inductive Json where
  | null : Json
  | bool (b : Bool) : Json
  | num (n : Int) : Json
  | str (s : String) : Json
  | arr (elems : List Json) : Json
  | obj (fields : List (String × Json)) : Json
deriving Repr

namespace Json

/-- `isinstance(v, dict)`: the value is a JSON object / Python mapping. -/
def isObj : Json → Bool
  | obj _ => true
  | _ => false

end Json

/-! ### A model of `json.loads`

An executable recursive-descent JSON reader over the character list of the
input.  It follows the grammar that Python's `json.loads` accepts, with the
restriction stated above: a number is an optional minus sign followed by
digits with no redundant leading zero, and a fractional part or exponent
makes the parse fail.  Object fields repeat Python `dict` semantics: a
repeated key overwrites the value at the key's first position. -/

/-- Skip JSON whitespace (space, tab, newline, carriage return). -/
def skipWs : List Char → List Char
  | c :: cs =>
    if c = ' ' ∨ c = '\t' ∨ c = '\n' ∨ c = '\r' then skipWs cs else c :: cs
  | [] => []

/-- Value of one hexadecimal digit. -/
def hexVal (c : Char) : Option Nat :=
  if '0' ≤ c ∧ c ≤ '9' then some (c.toNat - '0'.toNat)
  else if 'a' ≤ c ∧ c ≤ 'f' then some (c.toNat - 'a'.toNat + 10)
  else if 'A' ≤ c ∧ c ≤ 'F' then some (c.toNat - 'A'.toNat + 10)
  else none

/-- Read the body of a JSON string after the opening quote, handling the
escape sequences `json.loads` accepts.  A `\u` escape is four hex digits
turned into the code point directly (surrogate-pair combining is outside the
model).  A raw control character makes the parse fail, as in strict mode. -/
def parseStrAux : List Char → String → Option (String × List Char)
  | [], _ => none
  | '"' :: rest, acc => some (acc, rest)
  | '\\' :: '"' :: rest, acc => parseStrAux rest (acc.push '"')
  | '\\' :: '\\' :: rest, acc => parseStrAux rest (acc.push '\\')
  | '\\' :: '/' :: rest, acc => parseStrAux rest (acc.push '/')
  | '\\' :: 'b' :: rest, acc => parseStrAux rest (acc.push (Char.ofNat 8))
  | '\\' :: 'f' :: rest, acc => parseStrAux rest (acc.push (Char.ofNat 12))
  | '\\' :: 'n' :: rest, acc => parseStrAux rest (acc.push '\n')
  | '\\' :: 'r' :: rest, acc => parseStrAux rest (acc.push '\r')
  | '\\' :: 't' :: rest, acc => parseStrAux rest (acc.push '\t')
  | '\\' :: 'u' :: a :: b :: c :: d :: rest, acc =>
    match hexVal a, hexVal b, hexVal c, hexVal d with
    | some x, some y, some z, some w =>
      parseStrAux rest (acc.push (Char.ofNat (((x * 16 + y) * 16 + z) * 16 + w)))
    | _, _, _, _ => none
  | '\\' :: _, _ => none
  | c :: rest, acc =>
    if c.toNat < 32 then none else parseStrAux rest (acc.push c)

/-- Read a maximal run of decimal digits, returning them and the rest. -/
def takeDigits : List Char → List Char × List Char
  | c :: cs =>
    if '0' ≤ c ∧ c ≤ '9' then
      let (ds, rest) := takeDigits cs
      (c :: ds, rest)
    else ([], c :: cs)
  | [] => ([], [])

/-- Numeric value of a digit run. -/
def digitsToNat : List Char → Nat
  | [] => 0
  | c :: cs => (digitsToNat cs) + (c.toNat - '0'.toNat) * 10 ^ cs.length

/-- Read a JSON number (integer form only, per the model restriction): an
optional minus sign, digits with no redundant leading zero, and no
fractional part or exponent following. -/
def parseNum (cs : List Char) : Option (Json × List Char) :=
  let (neg, cs1) := match cs with
    | '-' :: rest => (true, rest)
    | _ => (false, cs)
  let (ds, rest) := takeDigits cs1
  match ds with
  | [] => none
  | d :: ds' =>
    if d = '0' ∧ ds' ≠ [] then none
    else
      match rest with
      | '.' :: _ => none
      | 'e' :: _ => none
      | 'E' :: _ => none
      | _ =>
        let n : Int := Int.ofNat (digitsToNat (d :: ds'))
        some (Json.num (if neg then -n else n), rest)

/-- Insert a field into an object under construction, with Python `dict`
semantics: a repeated key keeps its first position and takes the new
value. -/
def insertField (k : String) (v : Json) : List (String × Json) → List (String × Json)
  | [] => [(k, v)]
  | (l, w) :: rest =>
    if l = k then (l, v) :: rest else (l, w) :: insertField k v rest

mutual

/-- Read one JSON value.  `fuel` bounds the recursion depth; `loads` supplies
more fuel than any input of its length can consume. -/
def parseVal : Nat → List Char → Option (Json × List Char)
  | 0, _ => none
  | fuel + 1, cs =>
    match skipWs cs with
    | [] => none
    | 'n' :: 'u' :: 'l' :: 'l' :: rest => some (Json.null, rest)
    | 't' :: 'r' :: 'u' :: 'e' :: rest => some (Json.bool true, rest)
    | 'f' :: 'a' :: 'l' :: 's' :: 'e' :: rest => some (Json.bool false, rest)
    | '"' :: rest =>
      match parseStrAux rest "" with
      | some (s, r) => some (Json.str s, r)
      | none => none
    | '[' :: rest =>
      match skipWs rest with
      | ']' :: r => some (Json.arr [], r)
      | r => parseItems fuel r []
    | '\x7b' :: rest =>
      match skipWs rest with
      | '\x7d' :: r => some (Json.obj [], r)
      | r => parseFields fuel r []
    | cs' => parseNum cs'

/-- Read the remaining elements of a non-empty array, accumulator in order. -/
def parseItems : Nat → List Char → List Json → Option (Json × List Char)
  | 0, _, _ => none
  | fuel + 1, cs, acc =>
    match parseVal fuel cs with
    | none => none
    | some (v, rest) =>
      match skipWs rest with
      | ',' :: r => parseItems fuel r (acc ++ [v])
      | ']' :: r => some (Json.arr (acc ++ [v]), r)
      | _ => none

/-- Read the remaining fields of a non-empty object, accumulator in order. -/
def parseFields : Nat → List Char → List (String × Json) →
    Option (Json × List Char)
  | 0, _, _ => none
  | fuel + 1, cs, acc =>
    match skipWs cs with
    | '"' :: rest =>
      match parseStrAux rest "" with
      | none => none
      | some (k, r1) =>
        match skipWs r1 with
        | ':' :: r2 =>
          match parseVal fuel r2 with
          | none => none
          | some (v, r3) =>
            match skipWs r3 with
            | ',' :: r4 => parseFields fuel r4 (insertField k v acc)
            | '\x7d' :: r4 => some (Json.obj (insertField k v acc), r4)
            | _ => none
        | _ => none
    | _ => none

end

/-- Model of Python's `json.loads`: parse the whole input as one JSON value
with nothing but whitespace after it; `none` models the `JSONDecodeError`
raise. -/
def loads (s : String) : Option Json :=
  match parseVal (2 * s.length + 2) s.data with
  | some (v, rest) => if skipWs rest = [] then some v else none
  | none => none

/-! ### The tool -/

/-- The process environment: a finite map from variable names to values. -/
def Env := List (String × String)

/-- Model of `os.environ.get`. -/
def Env.get (e : Env) (k : String) : Option String :=
  List.lookup k e

/-- The outcome that `urllib.request.urlopen` produced for this call:
* `success body`: a 2xx response whose body read and decoded to `body`;
* `httpError code reason hasFp bodyText`: a raised `urllib.error.HTTPError`
  with `e.code = code`, `e.reason = reason`; `hasFp` is whether `e.fp` is
  set, and `bodyText` is the string that `e.read().decode("utf-8")`
  returns.  This constructor covers only an `HTTPError` whose body read and
  decode succeed: in the source that expression runs inside the
  `except HTTPError` handler and can itself raise (e.g. a non-UTF-8 error
  body); that case is `NetOutcome.httpErrorUndecodable` in the refined
  model below, not an `HTTPResponse`;
* `urlError reason`: a raised `urllib.error.URLError` with the given
  `e.reason` text;
* `otherError msg`: any other exception raised inside the `try` block, with
  `str(e) = msg`. -/
inductive HTTPResponse where
  | success (body : String) : HTTPResponse
  | httpError (code : Nat) (reason : String) (hasFp : Bool) (bodyText : String) :
      HTTPResponse
  | urlError (reason : String) : HTTPResponse
  | otherError (msg : String) : HTTPResponse
deriving Repr, DecidableEq

/-- The parameters of `dataset_scalyr_query`, with the Python defaults. -/
structure QueryArgs where
  filter : String
  start_time : String := "4h"
  end_time : String := "0h"
  max_count : Int := 100
  columns : String := ""
  continuation_token : Option String := none
deriving Repr, DecidableEq

/-- The outbound HTTP request handed to `urllib.request.Request`; `data` is
the dictionary that is JSON-serialised into the request payload. -/
structure Request where
  url : String
  headers : List (String × String)
  method : String
  data : List (String × Json)
deriving Repr

/-- What one call produces: the returned value, and the request that was
handed to `urlopen` (`none` when the call returned before any network
activity). -/
structure CallResult where
  result : Json
  request : Option Request
deriving Repr

/-- The fixed endpoint URL. -/
def SCALYR_QUERY_URL : String := "https://app.scalyr.com/api/query"

/-- The error mapping returned when the credential is missing. -/
def missingTokenError : Json :=
  Json.obj [("error", Json.str "SCALYR_API_TOKEN environment variable not set")]

/-- The request body dictionary: the seven fixed fields, then
`body["continuationToken"] = continuation_token` exactly when the argument
is truthy (`if continuation_token:` — `None` and `""` are falsy). -/
def requestBody (token : String) (a : QueryArgs) : List (String × Json) :=
  let body := [
    ("token", Json.str token),
    ("queryType", Json.str "log"),
    ("filter", Json.str a.filter),
    ("startTime", Json.str a.start_time),
    ("endTime", Json.str a.end_time),
    ("maxCount", Json.num a.max_count),
    ("columns", Json.str a.columns)]
  match a.continuation_token with
  | none => body
  | some t => if t = "" then body else insertField "continuationToken" (Json.str t) body

/-- `dataset_scalyr_query` (src/tools/dataset_scalyr_query.py).

`env` is the process environment, `resp` the outcome `urlopen` produced for
this call, and `decodeMsg body` models `str(e)` of the `json.JSONDecodeError`
that `json.loads` raises on the malformed text `body` (library-defined,
position-dependent text).  Over the outcomes `HTTPResponse` can express,
every failure path returns a mapping; the one Python path that raises
instead — a failing body read inside the `except HTTPError` handler — is
outside `HTTPResponse` and is modelled by `dataset_scalyr_query_exc`
below. -/
def dataset_scalyr_query (env : Env) (resp : HTTPResponse)
    (decodeMsg : String → String) (a : QueryArgs) : CallResult :=
  match env.get "SCALYR_API_TOKEN" with
  | none => { result := missingTokenError, request := none }
  | some t =>
    if t = "" then { result := missingTokenError, request := none }
    else
      let body := requestBody t a
      let req : Request :=
        { url := SCALYR_QUERY_URL,
          headers := [("Content-Type", "application/json")],
          method := "POST",
          data := body }
      let res : Json :=
        match resp with
        | .success respBody =>
          match loads respBody with
          | some v => v
          | none =>
            Json.obj [("error", Json.str ("Unexpected error: " ++ decodeMsg respBody))]
        | .httpError code reason hasFp bodyText =>
          let errorBody :=
            if hasFp then bodyText
            else "HTTP Error " ++ toString code ++ ": " ++ reason
          let details :=
            match loads errorBody with
            | some v => v
            | none => Json.str errorBody
          Json.obj [
            ("error", Json.str ("HTTP " ++ toString code ++ ": " ++ reason)),
            ("details", details)]
        | .urlError reason =>
          Json.obj [("error", Json.str ("URL Error: " ++ reason))]
        | .otherError msg =>
          Json.obj [("error", Json.str ("Unexpected error: " ++ msg))]
      { result := res, request := some req }

/-- Field lookup on a JSON object (first occurrence; the bodies this file
inspects have no repeated keys). -/
def Json.getField (v : Json) (k : String) : Option Json :=
  match v with
  | Json.obj fields => List.lookup k fields
  | _ => none

/-! ### The exception-escape refinement

`HTTPResponse.httpError` takes the decoded error body as given, but in the
source the decoding happens inside the `except HTTPError` handler:
`error_body = e.read().decode("utf-8") if e.fp else str(e)` (line 85).  When
that expression raises — for instance a `UnicodeDecodeError` on an error
body that is not valid UTF-8 — the exception is raised *inside* a handler,
and the sibling `except URLError` / `except Exception` clauses of the same
`try` statement do not catch exceptions raised in a handler, so it escapes
the function.  The refined model below makes that path expressible. -/

/-- The transport outcome with the `HTTPError` handler's own body read
modelled as well: `ok resp` is any outcome of `HTTPResponse`, and
`httpErrorUndecodable code reason excMsg` is a raised `HTTPError` (with
`e.fp` set) whose `e.read().decode("utf-8")` itself raises an exception
with `str` text `excMsg`. -/
inductive NetOutcome where
  | ok (resp : HTTPResponse) : NetOutcome
  | httpErrorUndecodable (code : Nat) (reason : String) (excMsg : String) :
      NetOutcome
deriving Repr

/-- An exception escaping the Python function to its caller. -/
structure PyExn where
  message : String
deriving Repr, DecidableEq

/-- `dataset_scalyr_query` with exception escape made visible.  In the
`httpErrorUndecodable` case (reached only with a truthy credential, since
the credential check precedes the request) the raise inside the
`except HTTPError` handler propagates to the caller: `Except.error`.  Every
other outcome returns (`Except.ok`) exactly what `dataset_scalyr_query`
returns. -/
def dataset_scalyr_query_exc (env : Env) (net : NetOutcome)
    (decodeMsg : String → String) (a : QueryArgs) : Except PyExn CallResult :=
  match env.get "SCALYR_API_TOKEN" with
  | none => Except.ok { result := missingTokenError, request := none }
  | some t =>
    if t = "" then Except.ok { result := missingTokenError, request := none }
    else
      match net with
      | NetOutcome.ok resp =>
        Except.ok (dataset_scalyr_query env resp decodeMsg a)
      | NetOutcome.httpErrorUndecodable _ _ excMsg =>
        Except.error { message := excMsg }

/-! ### Claims -/

/-- C2: with `SCALYR_API_TOKEN` absent from the environment, the call
returns the error mapping whose message mentions the key name
`SCALYR_API_TOKEN`, and no request is handed to the transport. -/
theorem C2_missing_token_short_circuit (env : Env) (resp : HTTPResponse)
    (dm : String → String) (a : QueryArgs)
    (henv : env.get "SCALYR_API_TOKEN" = none) :
    (dataset_scalyr_query env resp dm a).result =
      Json.obj [("error", Json.str "SCALYR_API_TOKEN environment variable not set")] ∧
    (∃ pre post : String,
      "SCALYR_API_TOKEN environment variable not set" =
        pre ++ "SCALYR_API_TOKEN" ++ post) ∧
    (dataset_scalyr_query env resp dm a).request = none := by
  refine ⟨?_, ⟨"", " environment variable not set", by decide⟩, ?_⟩ <;>
    simp [dataset_scalyr_query, henv, missingTokenError]

theorem C2_missing_token_witness :
    (dataset_scalyr_query [] (.urlError "x") (fun _ => "m") { filter := "f" }).result =
      Json.obj [("error", Json.str "SCALYR_API_TOKEN environment variable not set")] ∧
    (∃ pre post : String,
      "SCALYR_API_TOKEN environment variable not set" =
        pre ++ "SCALYR_API_TOKEN" ++ post) ∧
    (dataset_scalyr_query [] (.urlError "x") (fun _ => "m") { filter := "f" }).request =
      none :=
  C2_missing_token_short_circuit [] (.urlError "x") (fun _ => "m") { filter := "f" } rfl

/-- C10: with `SCALYR_API_TOKEN` present but equal to the empty string, the
call behaves exactly as in the absent-credential case: same error mapping
naming `SCALYR_API_TOKEN`, no request issued, and the whole call result
coincides with that of an environment without the variable (the check is
`if not token:`, Python truthiness). -/
theorem C10_empty_token_like_absent (env : Env) (resp : HTTPResponse)
    (dm : String → String) (a : QueryArgs)
    (henv : env.get "SCALYR_API_TOKEN" = some "") :
    dataset_scalyr_query env resp dm a = dataset_scalyr_query [] resp dm a ∧
    (dataset_scalyr_query env resp dm a).result =
      Json.obj [("error", Json.str "SCALYR_API_TOKEN environment variable not set")] ∧
    (dataset_scalyr_query env resp dm a).request = none := by
  have h0 : Env.get [] "SCALYR_API_TOKEN" = none := rfl
  refine ⟨?_, ?_, ?_⟩ <;> simp [dataset_scalyr_query, henv, h0, missingTokenError]

theorem C10_empty_token_witness :
    dataset_scalyr_query [("SCALYR_API_TOKEN", "")] (.success "\x7b\x7d")
        (fun _ => "m") { filter := "f" } =
      dataset_scalyr_query [] (.success "\x7b\x7d") (fun _ => "m") { filter := "f" } ∧
    (dataset_scalyr_query [("SCALYR_API_TOKEN", "")] (.success "\x7b\x7d")
        (fun _ => "m") { filter := "f" }).result =
      Json.obj [("error", Json.str "SCALYR_API_TOKEN environment variable not set")] ∧
    (dataset_scalyr_query [("SCALYR_API_TOKEN", "")] (.success "\x7b\x7d")
        (fun _ => "m") { filter := "f" }).request = none :=
  C10_empty_token_like_absent [("SCALYR_API_TOKEN", "")] (.success "\x7b\x7d")
    (fun _ => "m") { filter := "f" } rfl

/-- C3: with a truthy credential and all optional parameters left at their
defaults, the outbound body carries `startTime = "4h"`, `endTime = "0h"`,
`maxCount = 100`, `columns = ""` and `queryType = "log"`, and the key
`continuationToken` is absent from the body altogether. -/
theorem C3_default_body (env : Env) (resp : HTTPResponse) (dm : String → String)
    (f t : String) (henv : env.get "SCALYR_API_TOKEN" = some t) (ht : t ≠ "") :
    ∃ req : Request,
      (dataset_scalyr_query env resp dm { filter := f }).request = some req ∧
      List.lookup "startTime" req.data = some (Json.str "4h") ∧
      List.lookup "endTime" req.data = some (Json.str "0h") ∧
      List.lookup "maxCount" req.data = some (Json.num 100) ∧
      List.lookup "columns" req.data = some (Json.str "") ∧
      List.lookup "queryType" req.data = some (Json.str "log") ∧
      List.lookup "continuationToken" req.data = none := by
  refine ⟨{ url := SCALYR_QUERY_URL,
            headers := [("Content-Type", "application/json")],
            method := "POST",
            data := requestBody t { filter := f } }, ?_, ?_, ?_, ?_, ?_, ?_, ?_⟩
  · simp [dataset_scalyr_query, henv, ht]
  all_goals simp [requestBody, List.lookup]

theorem C3_default_body_witness :
    ∃ req : Request,
      (dataset_scalyr_query [("SCALYR_API_TOKEN", "tok")] (.success "\x7b\x7d")
          (fun _ => "m") { filter := "f" }).request = some req ∧
      List.lookup "startTime" req.data = some (Json.str "4h") ∧
      List.lookup "endTime" req.data = some (Json.str "0h") ∧
      List.lookup "maxCount" req.data = some (Json.num 100) ∧
      List.lookup "columns" req.data = some (Json.str "") ∧
      List.lookup "queryType" req.data = some (Json.str "log") ∧
      List.lookup "continuationToken" req.data = none :=
  C3_default_body [("SCALYR_API_TOKEN", "tok")] (.success "\x7b\x7d")
    (fun _ => "m") "f" "tok" rfl (by decide)

/-- C4 (counterexample): the claim fails when the supplied continuation
token is the empty string.  Here `continuation_token = some ""` is supplied,
a request goes out, and its body carries no `continuationToken` key — so on
this call the outbound body does not contain the supplied token. -/
theorem C4_counterexample :
    ((dataset_scalyr_query [("SCALYR_API_TOKEN", "tok")] (.success "\x7b\x7d")
        (fun _ => "m") { filter := "f", continuation_token := some "" }).request.map
      (fun req => List.lookup "continuationToken" req.data)) = some none := by
  rfl

/-- C4 (amended): with a truthy credential, whenever the supplied
`continuation_token` is non-empty, the outbound body carries
`continuationToken` equal to the supplied value.  (The unamended claim —
any supplied token is forwarded — fails for the supplied empty string,
which `if continuation_token:` treats as absent.) -/
theorem C4_token_forwarded (env : Env) (resp : HTTPResponse) (dm : String → String)
    (a : QueryArgs) (t ct : String)
    (henv : env.get "SCALYR_API_TOKEN" = some t) (ht : t ≠ "")
    (hct : a.continuation_token = some ct) (hne : ct ≠ "") :
    ∃ req : Request,
      (dataset_scalyr_query env resp dm a).request = some req ∧
      List.lookup "continuationToken" req.data = some (Json.str ct) := by
  refine ⟨{ url := SCALYR_QUERY_URL,
            headers := [("Content-Type", "application/json")],
            method := "POST",
            data := requestBody t a }, ?_, ?_⟩
  · simp [dataset_scalyr_query, henv, ht]
  · simp [requestBody, hct, hne, insertField, List.lookup]

theorem C4_token_forwarded_witness :
    ∃ req : Request,
      (dataset_scalyr_query [("SCALYR_API_TOKEN", "tok")] (.success "\x7b\x7d")
          (fun _ => "m") { filter := "f", continuation_token := some "next-1" }).request =
        some req ∧
      List.lookup "continuationToken" req.data = some (Json.str "next-1") :=
  C4_token_forwarded [("SCALYR_API_TOKEN", "tok")] (.success "\x7b\x7d")
    (fun _ => "m") { filter := "f", continuation_token := some "next-1" }
    "tok" "next-1" rfl (by decide) rfl (by decide)

/-- C9: supplying the empty string as the continuation token behaves exactly
like omitting the argument: the inclusion test is Python truthiness, so the
outbound body has no `continuationToken` key and the whole call result
coincides with the call that left the argument absent. -/
theorem C9_empty_ct_like_absent (env : Env) (resp : HTTPResponse)
    (dm : String → String) (a : QueryArgs) (t : String)
    (henv : env.get "SCALYR_API_TOKEN" = some t) (ht : t ≠ "")
    (hct : a.continuation_token = some "") :
    ∃ req : Request,
      (dataset_scalyr_query env resp dm a).request = some req ∧
      List.lookup "continuationToken" req.data = none ∧
      dataset_scalyr_query env resp dm a =
        dataset_scalyr_query env resp dm { a with continuation_token := none } := by
  refine ⟨{ url := SCALYR_QUERY_URL,
            headers := [("Content-Type", "application/json")],
            method := "POST",
            data := requestBody t a }, ?_, ?_, ?_⟩
  · simp [dataset_scalyr_query, henv, ht]
  · simp [requestBody, hct, List.lookup]
  · simp [dataset_scalyr_query, henv, ht, requestBody, hct]

theorem C9_empty_ct_witness :
    ∃ req : Request,
      (dataset_scalyr_query [("SCALYR_API_TOKEN", "tok")] (.success "\x7b\x7d")
          (fun _ => "m") { filter := "f", continuation_token := some "" }).request =
        some req ∧
      List.lookup "continuationToken" req.data = none ∧
      dataset_scalyr_query [("SCALYR_API_TOKEN", "tok")] (.success "\x7b\x7d")
          (fun _ => "m") { filter := "f", continuation_token := some "" } =
        dataset_scalyr_query [("SCALYR_API_TOKEN", "tok")] (.success "\x7b\x7d")
          (fun _ => "m") { filter := "f", continuation_token := none } :=
  C9_empty_ct_like_absent [("SCALYR_API_TOKEN", "tok")] (.success "\x7b\x7d")
    (fun _ => "m") { filter := "f", continuation_token := some "" } "tok"
    rfl (by decide) rfl

/-- C8: for any integer `max_count` — out-of-range values included — no
local bounds check happens: a request is issued whose body carries
`maxCount` equal to the supplied value, and the returned result is the same
as with the default `max_count`, so the call is never rejected locally on
account of `max_count`. -/
theorem C8_maxCount_forwarded (env : Env) (resp : HTTPResponse)
    (dm : String → String) (f st et cols : String) (ct : Option String)
    (m : Int) (t : String)
    (henv : env.get "SCALYR_API_TOKEN" = some t) (ht : t ≠ "") :
    ∃ req : Request,
      (dataset_scalyr_query env resp dm
        { filter := f, start_time := st, end_time := et, max_count := m,
          columns := cols, continuation_token := ct }).request = some req ∧
      List.lookup "maxCount" req.data = some (Json.num m) ∧
      (dataset_scalyr_query env resp dm
        { filter := f, start_time := st, end_time := et, max_count := m,
          columns := cols, continuation_token := ct }).result =
      (dataset_scalyr_query env resp dm
        { filter := f, start_time := st, end_time := et, max_count := 100,
          columns := cols, continuation_token := ct }).result := by
  refine ⟨{ url := SCALYR_QUERY_URL,
            headers := [("Content-Type", "application/json")],
            method := "POST",
            data := requestBody t
              { filter := f, start_time := st, end_time := et, max_count := m,
                columns := cols, continuation_token := ct } }, ?_, ?_, ?_⟩
  · simp [dataset_scalyr_query, henv, ht]
  · rcases ct with _ | s
    · simp [requestBody, List.lookup]
    · by_cases hs : s = "" <;> simp [requestBody, hs, insertField, List.lookup]
  · simp [dataset_scalyr_query, henv, ht]

theorem C8_maxCount_witness :
    ∃ req : Request,
      (dataset_scalyr_query [("SCALYR_API_TOKEN", "tok")] (.success "\x7b\x7d")
        (fun _ => "m")
        { filter := "f", start_time := "4h", end_time := "0h", max_count := 999999,
          columns := "", continuation_token := none }).request = some req ∧
      List.lookup "maxCount" req.data = some (Json.num 999999) ∧
      (dataset_scalyr_query [("SCALYR_API_TOKEN", "tok")] (.success "\x7b\x7d")
        (fun _ => "m")
        { filter := "f", start_time := "4h", end_time := "0h", max_count := 999999,
          columns := "", continuation_token := none }).result =
      (dataset_scalyr_query [("SCALYR_API_TOKEN", "tok")] (.success "\x7b\x7d")
        (fun _ => "m")
        { filter := "f", start_time := "4h", end_time := "0h", max_count := 100,
          columns := "", continuation_token := none }).result :=
  C8_maxCount_forwarded [("SCALYR_API_TOKEN", "tok")] (.success "\x7b\x7d")
    (fun _ => "m") "f" "4h" "0h" "" none 999999 "tok" rfl (by decide)

/-- C1 (counterexample): the claim fails when the 2xx body parses as JSON
that is not an object.  With body `"[1, 2, 3]"` the body parses as JSON,
and the returned value is the parsed array itself — verbatim, but not a
mapping type, contradicting the claim's "this returned value is a mapping
type". -/
theorem C1_counterexample :
    (dataset_scalyr_query [("SCALYR_API_TOKEN", "tok")] (.success "[1, 2, 3]")
        (fun _ => "m") { filter := "f" }).result =
      Json.arr [Json.num 1, Json.num 2, Json.num 3] ∧
    Json.isObj (dataset_scalyr_query [("SCALYR_API_TOKEN", "tok")]
        (.success "[1, 2, 3]") (fun _ => "m") { filter := "f" }).result = false :=
  ⟨rfl, rfl⟩

/-- C1 (amended): with a truthy credential and a 2xx response whose body
parses as JSON, the returned value equals exactly the parsed JSON body —
verbatim, no reshaping; whenever the body parses as a JSON object, the
returned value is a mapping type and not a (serialized or other) string.
(The unamended claim asserted the result is a mapping for every JSON body;
a body parsing to a non-object, e.g. `"[1, 2, 3]"`, is returned as-is.) -/
theorem C1_success_verbatim (env : Env) (dm : String → String) (a : QueryArgs)
    (t body : String) (v : Json)
    (henv : env.get "SCALYR_API_TOKEN" = some t) (ht : t ≠ "")
    (hparse : loads body = some v) :
    (dataset_scalyr_query env (.success body) dm a).result = v ∧
    (Json.isObj v = true →
      Json.isObj (dataset_scalyr_query env (.success body) dm a).result = true ∧
      ∀ s : String, (dataset_scalyr_query env (.success body) dm a).result ≠
        Json.str s) := by
  have h1 : (dataset_scalyr_query env (.success body) dm a).result = v := by
    simp [dataset_scalyr_query, henv, ht, hparse]
  refine ⟨h1, fun hv => ⟨by rw [h1]; exact hv, ?_⟩⟩
  intro s hs
  rw [h1] at hs
  subst hs
  simp [Json.isObj] at hv

theorem C1_success_verbatim_witness :
    (dataset_scalyr_query [("SCALYR_API_TOKEN", "tok")]
        (.success "\x7b\"status\": \"ok\"\x7d") (fun _ => "m")
        { filter := "f" }).result = Json.obj [("status", Json.str "ok")] ∧
    (Json.isObj (Json.obj [("status", Json.str "ok")]) = true →
      Json.isObj (dataset_scalyr_query [("SCALYR_API_TOKEN", "tok")]
        (.success "\x7b\"status\": \"ok\"\x7d") (fun _ => "m")
        { filter := "f" }).result = true ∧
      ∀ s : String, (dataset_scalyr_query [("SCALYR_API_TOKEN", "tok")]
        (.success "\x7b\"status\": \"ok\"\x7d") (fun _ => "m")
        { filter := "f" }).result ≠ Json.str s) :=
  C1_success_verbatim [("SCALYR_API_TOKEN", "tok")] (fun _ => "m")
    { filter := "f" } "tok" "\x7b\"status\": \"ok\"\x7d"
    (Json.obj [("status", Json.str "ok")]) rfl (by decide) rfl

/-- C5: with a truthy credential and an `HTTPError` carrying a readable
body, the result is the mapping with `error = "HTTP <code>: <reason>"` and
`details` the body parsed as JSON when it parses, otherwise the raw body
text — in particular, an HTTP 500 whose body is the non-JSON text
`"Non-JSON error response"` yields that raw string as `details`. -/
theorem C5_http_error_details (env : Env) (dm : String → String) (a : QueryArgs)
    (t : String) (code : Nat) (reason bodyText : String)
    (henv : env.get "SCALYR_API_TOKEN" = some t) (ht : t ≠ "") :
    (dataset_scalyr_query env (.httpError code reason true bodyText) dm a).result =
      Json.obj [
        ("error", Json.str ("HTTP " ++ toString code ++ ": " ++ reason)),
        ("details", match loads bodyText with
          | some v => v
          | none => Json.str bodyText)] ∧
    (dataset_scalyr_query env
        (.httpError 500 "Internal Server Error" true "Non-JSON error response")
        dm a).result =
      Json.obj [
        ("error", Json.str "HTTP 500: Internal Server Error"),
        ("details", Json.str "Non-JSON error response")] := by
  have hl : loads "Non-JSON error response" = none := by rfl
  constructor
  · simp [dataset_scalyr_query, henv, ht]
  · simp [dataset_scalyr_query, henv, ht, hl]
    decide

theorem C5_http_error_witness :
    (dataset_scalyr_query [("SCALYR_API_TOKEN", "tok")]
        (.httpError 400 "Bad Request" true
          "\x7b\"message\": \"Invalid query\", \"code\": \"BAD_REQUEST\"\x7d")
        (fun _ => "m") { filter := "f" }).result =
      Json.obj [
        ("error", Json.str ("HTTP " ++ toString 400 ++ ": " ++ "Bad Request")),
        ("details",
          match loads
            "\x7b\"message\": \"Invalid query\", \"code\": \"BAD_REQUEST\"\x7d" with
          | some v => v
          | none => Json.str
              "\x7b\"message\": \"Invalid query\", \"code\": \"BAD_REQUEST\"\x7d")] ∧
    (dataset_scalyr_query [("SCALYR_API_TOKEN", "tok")]
        (.httpError 500 "Internal Server Error" true "Non-JSON error response")
        (fun _ => "m") { filter := "f" }).result =
      Json.obj [
        ("error", Json.str "HTTP 500: Internal Server Error"),
        ("details", Json.str "Non-JSON error response")] :=
  C5_http_error_details [("SCALYR_API_TOKEN", "tok")] (fun _ => "m")
    { filter := "f" } "tok" 400 "Bad Request"
    "\x7b\"message\": \"Invalid query\", \"code\": \"BAD_REQUEST\"\x7d"
    rfl (by decide)

/-- C6: with a truthy credential and a transport-level failure
(`URLError`), the result is exactly `error = "URL Error: <reason>"`
carrying the transport reason string, and the mapping has no `details`
key. -/
theorem C6_url_error (env : Env) (dm : String → String) (a : QueryArgs)
    (t reason : String)
    (henv : env.get "SCALYR_API_TOKEN" = some t) (ht : t ≠ "") :
    (dataset_scalyr_query env (.urlError reason) dm a).result =
      Json.obj [("error", Json.str ("URL Error: " ++ reason))] ∧
    Json.getField
      (dataset_scalyr_query env (.urlError reason) dm a).result "details" = none := by
  have h1 : (dataset_scalyr_query env (.urlError reason) dm a).result =
      Json.obj [("error", Json.str ("URL Error: " ++ reason))] := by
    simp [dataset_scalyr_query, henv, ht]
  refine ⟨h1, ?_⟩
  rw [h1]
  simp [Json.getField, List.lookup]

theorem C6_url_error_witness :
    (dataset_scalyr_query [("SCALYR_API_TOKEN", "tok")]
        (.urlError "Network unreachable") (fun _ => "m") { filter := "f" }).result =
      Json.obj [("error", Json.str ("URL Error: " ++ "Network unreachable"))] ∧
    Json.getField
      (dataset_scalyr_query [("SCALYR_API_TOKEN", "tok")]
        (.urlError "Network unreachable") (fun _ => "m")
        { filter := "f" }).result "details" = none :=
  C6_url_error [("SCALYR_API_TOKEN", "tok")] (fun _ => "m") { filter := "f" }
    "tok" "Network unreachable" rfl (by decide)

/-- C7 (the code evaluated at the failing input): with the credential
configured and the POST answered by an HTTP 500 whose error body is not
valid UTF-8, `e.read().decode("utf-8")` raises inside the
`except HTTPError` handler, no sibling handler of the same `try` catches an
exception raised in a handler, and the exception escapes to the caller —
no structured error mapping is returned, contradicting the claim (and the
catch-all `except Exception` that states the code's own no-escape
intent). -/
theorem C7_exception_escapes :
    dataset_scalyr_query_exc [("SCALYR_API_TOKEN", "tok")]
      (NetOutcome.httpErrorUndecodable 500 "Internal Server Error"
        "utf-8 codec cannot decode byte 0xff in position 0: invalid start byte")
      (fun _ => "m") { filter := "f" } =
    Except.error
      { message :=
          "utf-8 codec cannot decode byte 0xff in position 0: invalid start byte" } :=
  rfl
